import Mathlib

/-!
Shallow embedding of the SmartFarmWatcher detection-ingestion pipeline,
asset registry and notification fanout, translated from
`config/detection_management/views.py`, `config/project_management/models.py`
and `config/notification_management/signals.py`.
-/

namespace SmartFarm

/-- Raw bounding box as produced by `process_detection_results`:
corner coordinates, derived width/height, confidence and class id. -/
structure RawBox where
  x1 : Rat
  y1 : Rat
  x2 : Rat
  y2 : Rat
  width : Rat
  height : Rat
  confidence : Rat
  cls : Int
deriving DecidableEq, Repr

/-- Camera row (`project_management.models.Camera`), restricted to the
fields the ingestion endpoint reads. -/
structure Camera where
  id : Nat
  camera_type : String
  ip_address : Option String
  port : Option Nat
  cellular_identifier : Option String
  is_active : Bool
deriving DecidableEq, Repr

/-- Detection row (`detection_management.models.Detection`); image artifact
fields are omitted, `detection_type` is the type's name string. -/
structure Detection where
  camera : Nat
  detection_type : String
  confidence_score : Rat
  bounding_boxes : List RawBox
  is_false_positive : Bool
deriving DecidableEq, Repr

/-- Persistent store plus an invocation log: detection rows are keyed by
their primary key, `events` records which AI model was invoked. -/
structure World where
  cameras : List Camera
  detections : List (Nat × Detection)
  next_id : Nat
  events : List String
deriving DecidableEq, Repr

/-- Map a class id to a detection type name
(`get_detection_type_from_class`): the fire model's mapping is
`{0: 'fire', 1: 'smoke'}` with default `'fire'`. -/
def get_detection_type_from_class (class_id : Int) (model_type : String) : String :=
  if model_type = "fire" then
    if class_id = 0 then "fire" else if class_id = 1 then "smoke" else "fire"
  else if model_type = "person" then "person"
  else model_type

/-- Average confidence computed in `save_detection`:
`sum(d['confidence'] for d in detections) / len(detections) if detections else 0`. -/
def avg_confidence (detections : List RawBox) : Rat :=
  if detections.isEmpty then 0
  else (detections.map (·.confidence)).sum / (detections.length : Rat)

/-- Persist one detection row (`save_detection`): the confidence score is the
average of the group's box confidences, the row carries exactly the group's
boxes.  Returns the new primary key and the updated store. -/
def save_detection (camera : Camera) (detection_type_name : String)
    (detections : List RawBox) (w : World) : Nat × World :=
  let row : Detection :=
    { camera := camera.id
      detection_type := detection_type_name
      confidence_score := avg_confidence detections
      bounding_boxes := detections
      is_false_positive := false }
  (w.next_id,
   { w with
      detections := w.detections ++ [(w.next_id, row)]
      next_id := w.next_id + 1 })

/-- Environment of one ingestion request: which models are loaded, the
(threshold-filtered) box lists the models return for this frame, and
whether each per-group `save_detection` call succeeds or raises. -/
structure Env where
  fire_model : Bool
  person_model : Bool
  fire_boxes : List RawBox
  person_boxes : List RawBox
  save_ok : String → Bool

/-- Hard-coded dummy fire box used when the fire model is not loaded. -/
def dummy_fire_boxes : List RawBox :=
  [{ x1 := 100, y1 := 100, x2 := 200, y2 := 200,
     width := 100, height := 100, confidence := 85/100, cls := 0 }]

/-- Hard-coded dummy smoke box used when the fire model is not loaded. -/
def dummy_smoke_boxes : List RawBox :=
  [{ x1 := 250, y1 := 150, x2 := 350, y2 := 250,
     width := 100, height := 100, confidence := 75/100, cls := 1 }]

/-- Boxes sorted into the fire group by the partition loop of
`process_fire_smoke_detection` (mapped type `'fire'`). -/
def fire_group (boxes : List RawBox) : List RawBox :=
  boxes.filter (fun d => get_detection_type_from_class d.cls "fire" = "fire")

/-- Boxes sorted into the smoke group by the partition loop of
`process_fire_smoke_detection` (mapped type `'smoke'`). -/
def smoke_group (boxes : List RawBox) : List RawBox :=
  boxes.filter (fun d => get_detection_type_from_class d.cls "fire" = "smoke")

/-- Fire/smoke stage (`process_fire_smoke_detection`).  When the model is
loaded the whole stage body runs inside one `try`: a raised group save is
caught at the stage level, so the ids accumulated so far are returned and
later statements of the block are skipped.  When the model is not loaded the
dummy branch runs outside any `try`, so a raised save propagates
(`Except.error` carries the store as left by the partial run). -/
def process_fire_smoke_detection (env : Env) (camera : Camera) (w : World) :
    Except World (List Nat × World) :=
  if env.fire_model then
    let w := { w with events := w.events ++ ["fire_model"] }
    let fire_only := fire_group env.fire_boxes
    let smoke_only := smoke_group env.fire_boxes
    if fire_only.isEmpty then
      if smoke_only.isEmpty then Except.ok ([], w)
      else if env.save_ok "smoke" then
        let (sid, w) := save_detection camera "smoke" smoke_only w
        Except.ok ([sid], w)
      else Except.ok ([], w)
    else if env.save_ok "fire" then
      let (fid, w) := save_detection camera "fire" fire_only w
      if smoke_only.isEmpty then Except.ok ([fid], w)
      else if env.save_ok "smoke" then
        let (sid, w) := save_detection camera "smoke" smoke_only w
        Except.ok ([fid, sid], w)
      else Except.ok ([fid], w)
    else Except.ok ([], w)
  else
    if env.save_ok "fire" then
      let (fid, w) := save_detection camera "fire" dummy_fire_boxes w
      if env.save_ok "smoke" then
        let (sid, w) := save_detection camera "smoke" dummy_smoke_boxes w
        Except.ok ([fid, sid], w)
      else Except.error w
    else Except.error w

/-- Person stage (`process_person_detection`): runs the person model when
loaded, keeps only class-0 boxes, persists one detection if any remain; a
raised save is caught inside the stage. -/
def process_person_detection (env : Env) (camera : Camera) (w : World) :
    List Nat × World :=
  if env.person_model then
    let w := { w with events := w.events ++ ["person_model"] }
    let person_detections := env.person_boxes.filter (fun d => d.cls = 0)
    if person_detections.isEmpty then ([], w)
    else if env.save_ok "person" then
      let (pid, w) := save_detection camera "person" person_detections w
      ([pid], w)
    else ([], w)
  else ([], w)

/-- Multipart form fields of one ingestion request, as read by
`receive_image` (`request.POST.get` yields `None` when absent). -/
structure IngestRequest where
  camera_id : Option String
  ip_port : Option String
  cellular_identifier : Option String
  has_image : Bool

/-- Python truthiness of a `POST.get` result: absent or empty is falsy. -/
def truthy : Option String → Bool
  | none => false
  | some s => !s.isEmpty

/-- Parse `"ip:port"` as in `ip_port.split(':')` followed by `int(port)`:
anything but exactly two fields with a numeric port raises `ValueError`. -/
def parse_ip_port (s : String) : Option (String × Nat) :=
  match s.splitOn ":" with
  | [ip, p] =>
    match p.toNat? with
    | some n => some (ip, n)
    | none => none
  | _ => none

/-- Errors raised inside `get_camera_by_identifier`: `Http404` comes from
`get_object_or_404`, `ValueError` from a malformed `ip:port` string. -/
inductive CamErr where
  | http404
  | value_error
deriving DecidableEq, Repr

/-- Camera lookup (`get_camera_by_identifier`): the three identifier forms
are tried by priority (`if camera_id ... elif ip_port ... elif cellular`);
the id path has no `is_active` filter, the other two paths do. -/
def get_camera_by_identifier (camera_id ip_port cellular_id : Option String)
    (cameras : List Camera) : Except CamErr (Option Camera) :=
  if truthy camera_id then
    match cameras.find? (fun c => toString c.id == camera_id.getD "") with
    | some c => Except.ok (some c)
    | none => Except.error CamErr.http404
  else if truthy ip_port then
    match parse_ip_port (ip_port.getD "") with
    | none => Except.error CamErr.value_error
    | some (ip, p) =>
      match cameras.find? (fun c =>
          c.camera_type == "ip" && c.ip_address == some ip &&
          c.port == some p && c.is_active) with
      | some c => Except.ok (some c)
      | none => Except.error CamErr.http404
  else if truthy cellular_id then
    match cameras.find? (fun c =>
        c.camera_type == "cellular" &&
        c.cellular_identifier == cellular_id && c.is_active) with
    | some c => Except.ok (some c)
    | none => Except.error CamErr.http404
  else Except.ok none

/-- Success payload of the ingestion endpoint. -/
structure IngestResponse where
  success : Bool
  camera_id : Nat
  camera_type : String
  detections_created : List Nat
  fire_smoke_detected : Bool
  person_detection_skipped : Bool
deriving DecidableEq, Repr

/-- Ingestion endpoint (`receive_image`).  Errors are `(status, message)`
pairs.  `Http404` raised by `get_object_or_404` is not
`Camera.DoesNotExist`, so it is caught by the outer generic handler and
surfaces as a 500, not by the dedicated 404 branch. -/
def receive_image (req : IngestRequest) (env : Env) (w : World) :
    Except (Nat × String) IngestResponse × World :=
  if !(truthy req.camera_id || truthy req.ip_port || truthy req.cellular_identifier) then
    (Except.error (400, "Camera identifier required"), w)
  else
    match get_camera_by_identifier req.camera_id req.ip_port
        req.cellular_identifier w.cameras with
    | Except.error CamErr.value_error =>
        (Except.error (400, "Invalid IP:port format"), w)
    | Except.error CamErr.http404 =>
        (Except.error (500, "Http404"), w)
    | Except.ok none =>
        (Except.error (500, "NoneType has no attribute is_active"), w)
    | Except.ok (some camera) =>
      if !camera.is_active then
        (Except.error (400, "Camera is not active"), w)
      else if !req.has_image then
        (Except.error (400, "Image file required"), w)
      else
        match process_fire_smoke_detection env camera w with
        | Except.error w1 => (Except.error (500, "detection error"), w1)
        | Except.ok (fire_smoke_detections, w1) =>
          let (person_detections, w2) :=
            if fire_smoke_detections.length = 0 then
              process_person_detection env camera w1
            else ([], w1)
          (Except.ok
            { success := true
              camera_id := camera.id
              camera_type := camera.camera_type
              detections_created := fire_smoke_detections ++ person_detections
              fire_smoke_detected := fire_smoke_detections.length > 0
              person_detection_skipped := fire_smoke_detections.length > 0 },
           w2)

/-- Number of persisted fire or smoke detection rows. -/
def fire_smoke_count (w : World) : Nat :=
  (w.detections.filter
    (fun p => p.2.detection_type == "fire" || p.2.detection_type == "smoke")).length

/-- Number of recorded invocations of the person model. -/
def person_model_calls (w : World) : Nat :=
  w.events.count "person_model"

/-! ## Notification fanout (`notification_management/signals.py`) -/

/-- UserProjectRole row, restricted to what the fanout reads. -/
structure UserProjectRole where
  user : Nat
  project : Nat
  role : String
  is_active : Bool
deriving DecidableEq, Repr

/-- Notification row created by the fanout. -/
structure NotificationRow where
  user : Nat
  detection : Nat
  notification_type : String
deriving DecidableEq, Repr

/-- Detection instance as seen by the `post_save` receiver: its pk, its
camera's project, and the false-positive flag at signal time. -/
structure DetInstance where
  id : Nat
  project : Nat
  camera_id : Nat
  detection_type : String
  is_false_positive : Bool
deriving DecidableEq, Repr

/-- The `post_save` receiver `create_detection_notification`: when the save
was an insert (`created`) and the detection is not a false positive, one
`Notification.objects.create` runs per active `UserProjectRole` of the
detection's camera's project; otherwise nothing happens. -/
def create_detection_notification (created : Bool) (inst : DetInstance)
    (roles : List UserProjectRole) (notifs : List NotificationRow) :
    List NotificationRow :=
  if created && !inst.is_false_positive then
    let users := (roles.filter
      (fun r => r.project == inst.project && r.is_active)).map (·.user)
    notifs ++ users.map
      (fun u => { user := u, detection := inst.id,
                  notification_type := "detection" })
  else notifs

/-- Run the receiver over a sequence of `post_save` events for one
detection instance; each event carries its `created` flag. -/
def run_post_save (inst : DetInstance) (roles : List UserProjectRole)
    (events : List Bool) (notifs : List NotificationRow) :
    List NotificationRow :=
  events.foldl
    (fun ns created => create_detection_notification created inst roles ns)
    notifs

/-- Audience of a detection: users of the active roles of its project. -/
def fanout_audience (inst : DetInstance) (roles : List UserProjectRole) :
    List Nat :=
  (roles.filter (fun r => r.project == inst.project && r.is_active)).map (·.user)

/-! ## Farm boundaries (`project_management/models.py`), generic in the
geometry backend: `inter` is the GEOS `intersects` predicate, `area_backend`
the projected-area computation, both external to the repository. -/

/-- GeometryError raised by the geometry backend. -/
inductive GeometryError where
  | malformed
  | self_intersecting
  | zero_area
deriving DecidableEq, Repr

/-- FarmBoundary row; the geometry lives in an abstract type `G`. -/
structure FarmBoundary (G : Type) where
  pk : Nat
  project : Nat
  boundary : Option G
  area_hectares : Rat
  is_active : Bool
deriving DecidableEq, Repr

/-- Python `round(x, 2)` (banker's rounding, half to even). -/
def py_round2 (q : Rat) : Rat :=
  let scaled := q * 100
  let fl : Int := ⌊scaled⌋
  let frac := scaled - (fl : Rat)
  if frac < 1/2 then (fl : Rat) / 100
  else if frac > 1/2 then ((fl + 1 : Int) : Rat) / 100
  else if fl % 2 = 0 then (fl : Rat) / 100
  else ((fl + 1 : Int) : Rat) / 100

/-- Area computation (`FarmBoundary.get_area_hectares`): transform to Web
Mercator, take the planar area, divide by 10000 and round to 2 decimals;
any exception from the geometry backend is caught and `0` is returned. -/
def get_area_hectares {G : Type}
    (area_backend : G → Except GeometryError Rat) (boundary : Option G) : Rat :=
  match boundary with
  | none => 0
  | some g =>
    match area_backend g with
    | Except.ok area_sqm => py_round2 (area_sqm / 10000)
    | Except.error _ => 0

/-- Model save (`FarmBoundary.save`): when a geometry is present,
`area_hectares` is recomputed from it before the row is written. -/
def farm_boundary_save {G : Type}
    (area_backend : G → Except GeometryError Rat) (b : FarmBoundary G) :
    FarmBoundary G :=
  if b.boundary.isSome then
    { b with area_hectares := get_area_hectares area_backend b.boundary }
  else b

/-- Overlap validation (`FarmBoundary.validate_no_boundary_overlap`):
collect the active, geometry-bearing boundaries of the same project
(excluding `self.pk` when updating), keep those whose geometry intersects
the candidate geometry, succeed iff none remain.  Returns the validity flag
and the offending pks. -/
def validate_no_boundary_overlap {G : Type} (inter : G → G → Bool)
    (self_pk : Option Nat) (self_project : Nat) (self_boundary : Option G)
    (all : List (FarmBoundary G)) : Bool × List Nat :=
  match self_boundary with
  | none => (true, [])
  | some g =>
    let existing : List (FarmBoundary G) := all.filter
      (fun b => b.project == self_project && b.boundary.isSome && b.is_active)
    let existing : List (FarmBoundary G) :=
      match self_pk with
      | some pk => existing.filter (fun b => b.pk != pk)
      | none => existing
    let overlapping : List (FarmBoundary G) := existing.filter
      (fun b =>
        match b.boundary with
        | some h => inter g h
        | none => false)
    (overlapping.isEmpty, overlapping.map (·.pk))

/-- Validation hook (`FarmBoundary.clean`): raise a `ValidationError`
carrying the offending boundary pks when the overlap check fails. -/
def farm_boundary_clean {G : Type} (inter : G → G → Bool)
    (self_pk : Option Nat) (self_project : Nat) (self_boundary : Option G)
    (all : List (FarmBoundary G)) : Except (List Nat) Unit :=
  match self_boundary with
  | none => Except.ok ()
  | some _ =>
    if (validate_no_boundary_overlap inter self_pk self_project
          self_boundary all).1 then Except.ok ()
    else Except.error
      (validate_no_boundary_overlap inter self_pk self_project
        self_boundary all).2

/-- Insert path used by the project forms and views: `full_clean()` (which
runs `clean` on the unsaved instance, whose pk is still `None`) followed by
the row insert. -/
def add_boundary {G : Type} (inter : G → G → Bool) (b : FarmBoundary G)
    (all : List (FarmBoundary G)) :
    Except (List Nat) (List (FarmBoundary G)) :=
  match farm_boundary_clean inter none b.project b.boundary all with
  | Except.error offenders => Except.error offenders
  | Except.ok () => Except.ok (all ++ [b])

/-- Update path: `full_clean()` on the existing instance (its pk excludes
itself from the sibling scan) followed by the row update. -/
def update_boundary {G : Type} (inter : G → G → Bool) (b : FarmBoundary G)
    (all : List (FarmBoundary G)) :
    Except (List Nat) (List (FarmBoundary G)) :=
  match farm_boundary_clean inter (some b.pk) b.project b.boundary all with
  | Except.error offenders => Except.error offenders
  | Except.ok () => Except.ok (all.map (fun x => if x.pk = b.pk then b else x))

/-- Invariant claimed for the store: geometries of two distinct active
boundaries of one project never intersect. -/
def BoundaryInv {G : Type} (inter : G → G → Bool)
    (all : List (FarmBoundary G)) : Prop :=
  ∀ b1 ∈ all, ∀ b2 ∈ all, b1.pk ≠ b2.pk → b1.is_active = true →
    b2.is_active = true → b1.project = b2.project →
    ∀ g1 g2, b1.boundary = some g1 → b2.boundary = some g2 →
      inter g1 g2 = false

/-- Closed axis-aligned rational rectangle, a concrete geometry instance:
two closed rectangles intersect (share at least one point, so touching
edges count) iff their coordinate ranges overlap in both axes. -/
structure Rect where
  x1 : Int
  y1 : Int
  x2 : Int
  y2 : Int
deriving DecidableEq, Repr

/-- General intersection test for closed rectangles: true also when the
regions merely touch. -/
def Rect.intersects (a b : Rect) : Bool :=
  a.x1 ≤ b.x2 && b.x1 ≤ a.x2 && a.y1 ≤ b.y2 && b.y1 ≤ a.y2

/-! ## Project slug and access code (`project_management/models.py`) -/

/-- Slug collision loop from `Project.save`: while the candidate slug is
taken, append `-counter` and bump the counter; as soon as the counter would
exceed 1000, fall back to the time-derived slug and stop. -/
def generate_slug_from (taken : String → Bool) (base_slug time_slug : String)
    (counter : Nat) (slug : String) : String :=
  if taken slug then
    if counter + 1 > 1000 then time_slug
    else generate_slug_from taken base_slug time_slug (counter + 1)
      (base_slug ++ "-" ++ toString counter)
  else slug
termination_by 1001 - counter
decreasing_by omega

/-- Slug assignment in `Project.save`: start from the slugified name with
`counter = 1`; the time-derived fallback is `base_slug-<timestamp>`. -/
def generate_unique_slug (taken : String → Bool) (base_slug : String)
    (timestamp : Nat) : String :=
  generate_slug_from taken base_slug (base_slug ++ "-" ++ toString timestamp) 1 base_slug

/-- UUID fallback of `generate_access_code`:
`str(uuid.uuid4()).replace('-', '').upper()[:12]` — dropping the dashes,
uppercasing each character and keeping the first 12. -/
def uuid_fallback (u : String) : String :=
  String.mk (((u.data.filter (fun c => c != '-')).map Char.toUpper).take 12)

/-- Access-code rejection sampling (`Project.generate_access_code`): draw
up to `max_attempts = 100` random 12-character codes, return the first one
not already taken, else fall back to the UUID-derived code.  `rand n` is
the code produced on attempt `n`. -/
def generate_access_code_from (taken : String → Bool) (rand : Nat → String)
    (uuid_code : String) (attempts : Nat) : String :=
  if attempts < 100 then
    let code := rand attempts
    if taken code then
      generate_access_code_from taken rand uuid_code (attempts + 1)
    else code
  else uuid_code
termination_by 100 - attempts
decreasing_by omega

/-- Access-code generation starting at attempt 0. -/
def generate_access_code (taken : String → Bool) (rand : Nat → String)
    (uuid_code : String) : String :=
  generate_access_code_from taken rand uuid_code 0

/-! ## Lemmas on the pipeline stages -/

/-- When the fire/smoke stage returns without creating any detection, the
detection table is untouched. -/
theorem fs_stage_nil_detections (env : Env) (camera : Camera) (w w1 : World)
    (ids : List Nat)
    (h : process_fire_smoke_detection env camera w = Except.ok (ids, w1))
    (hnil : ids = []) : w1.detections = w.detections := by
  unfold process_fire_smoke_detection fire_group smoke_group save_detection at h
  dsimp only at h
  split_ifs at h <;>
    first
      | (simp at h; done)
      | (simp only [Except.ok.injEq, Prod.mk.injEq] at h
         obtain ⟨h1, h2⟩ := h
         subst h2
         simp_all)

/-- The fire/smoke stage appends at most a `"fire_model"` entry to the
invocation log. -/
theorem fs_stage_events (env : Env) (camera : Camera) (w w1 : World)
    (ids : List Nat)
    (h : process_fire_smoke_detection env camera w = Except.ok (ids, w1)) :
    w1.events = w.events ∨ w1.events = w.events ++ ["fire_model"] := by
  unfold process_fire_smoke_detection fire_group smoke_group save_detection at h
  dsimp only at h
  split_ifs at h <;>
    first
      | (simp at h; done)
      | (simp only [Except.ok.injEq, Prod.mk.injEq] at h
         obtain ⟨h1, h2⟩ := h
         subst h2
         simp_all)

/-- The person stage never touches fire or smoke detection rows. -/
theorem person_stage_fs_rows (env : Env) (camera : Camera) (w : World) :
    ((process_person_detection env camera w).2).detections.filter
      (fun p => p.2.detection_type == "fire" || p.2.detection_type == "smoke")
    = w.detections.filter
      (fun p => p.2.detection_type == "fire" || p.2.detection_type == "smoke") := by
  unfold process_person_detection save_detection
  dsimp only
  split_ifs <;> simp_all [List.filter_append]

/-! ## Sample data for concrete runs -/

/-- Sample active IP camera with id 1. -/
def camera1 : Camera :=
  { id := 1, camera_type := "ip", ip_address := some "10.0.0.5",
    port := some 8080, cellular_identifier := none, is_active := true }

/-- Sample fire box, class 0, confidence 0.9. -/
def box_fire09 : RawBox :=
  { x1 := 0, y1 := 0, x2 := 10, y2 := 10, width := 10, height := 10,
    confidence := 9/10, cls := 0 }

/-- Initial store holding only `camera1`. -/
def w0 : World := { cameras := [camera1], detections := [], next_id := 0, events := [] }

/-- Request identifying `camera1` by id, with an image attached. -/
def reqById : IngestRequest :=
  { camera_id := some "1", ip_port := none, cellular_identifier := none,
    has_image := true }

/-- Environment for the C1 run: both models loaded, fire model returns one
fire box, all saves succeed. -/
def envC1 : Env :=
  { fire_model := true, person_model := true, fire_boxes := [box_fire09],
    person_boxes := [], save_ok := fun _ => true }

/-- Store after the C1 run: one persisted fire detection. -/
def w0_fire : World :=
  { cameras := [camera1]
    detections := [(0,
      { camera := 1, detection_type := "fire", confidence_score := 9/10,
        bounding_boxes := [box_fire09], is_false_positive := false })]
    next_id := 1
    events := ["fire_model"] }

/-- Response of the C1 run. -/
def respC1 : IngestResponse :=
  { success := true, camera_id := 1, camera_type := "ip",
    detections_created := [0], fire_smoke_detected := true,
    person_detection_skipped := true }

/-- C1: for every ingested frame, person-model inference is executed only if
the fire/smoke evaluation step produced zero fire or smoke detections;
whenever at least one fire or smoke Detection was created for the frame
(the detection table gained fire/smoke rows), the person model is not
invoked and the response reports `person_detection_skipped` as true. -/
theorem C1_person_inference_only_without_fire_smoke
    (req : IngestRequest) (env : Env) (w : World) (resp : IngestResponse)
    (w' : World)
    (h : receive_image req env w = (Except.ok resp, w'))
    (hfs : fire_smoke_count w < fire_smoke_count w') :
    resp.person_detection_skipped = true ∧
    person_model_calls w' = person_model_calls w := by
  unfold receive_image at h
  split at h
  · simp at h
  · split at h
    · simp at h
    · simp at h
    · simp at h
    · next camera hcam =>
      split at h
      · simp at h
      · split at h
        · simp at h
        · split at h
          · simp at h
          · next fids w1 heq =>
            by_cases hlen : fids.length = 0
            · exfalso
              rw [if_pos hlen] at h
              rcases hpp : process_person_detection env camera w1 with ⟨pids, w2⟩
              rw [hpp] at h
              dsimp only at h
              simp only [Prod.mk.injEq, Except.ok.injEq] at h
              obtain ⟨hresp, hw⟩ := h
              have hd1 : w1.detections = w.detections :=
                fs_stage_nil_detections env camera w w1 fids heq
                  (List.length_eq_zero.mp hlen)
              have hd2 := person_stage_fs_rows env camera w1
              rw [hpp] at hd2
              have : fire_smoke_count w' = fire_smoke_count w := by
                unfold fire_smoke_count
                rw [← hw]
                simp only at hd2
                rw [hd2, hd1]
              omega
            · rw [if_neg hlen] at h
              dsimp only at h
              simp only [Prod.mk.injEq, Except.ok.injEq] at h
              obtain ⟨hresp, hw⟩ := h
              subst hresp
              subst hw
              constructor
              · simp [Nat.pos_of_ne_zero hlen]
              · unfold person_model_calls
                rcases fs_stage_events env camera w w1 fids heq with he | he <;>
                  simp [he, List.count_append]

/-- Witness for C1 at a concrete frame: one fire box with confidence 0.9 is
returned by the fire model, a fire Detection is created, and person
detection is skipped without invoking the person model. -/
theorem C1_witness :
    respC1.person_detection_skipped = true ∧
    person_model_calls w0_fire = person_model_calls w0 :=
  C1_person_inference_only_without_fire_smoke reqById envC1 w0 respC1 w0_fire
    (by simp +decide [receive_image, reqById, envC1, w0, w0_fire, camera1, box_fire09,
          respC1, get_camera_by_identifier, truthy, process_fire_smoke_detection,
          fire_group, smoke_group, save_detection, avg_confidence,
          get_detection_type_from_class])
    (by decide)

/-- Environment for the C10 run: fire model not loaded, saves succeed. -/
def envC10 : Env :=
  { fire_model := false, person_model := true, fire_boxes := [],
    person_boxes := [], save_ok := fun _ => true }

/-- C10: when the fire/smoke model is not loaded, every ingestion request
with a valid active camera and image persists exactly two synthetic
Detection rows — one of type fire with confidence 0.85 and one of type
smoke with confidence 0.75, each with its fixed hard-coded bounding box —
and person inference is always skipped for such requests. -/
theorem C10_dummy_detections (req : IngestRequest) (env : Env) (w : World)
    (cam : Camera)
    (hm : env.fire_model = false)
    (hsf : env.save_ok "fire" = true)
    (hss : env.save_ok "smoke" = true)
    (hres : get_camera_by_identifier req.camera_id req.ip_port
      req.cellular_identifier w.cameras = Except.ok (some cam))
    (hact : cam.is_active = true)
    (himg : req.has_image = true) :
    receive_image req env w =
      (Except.ok
        { success := true, camera_id := cam.id, camera_type := cam.camera_type,
          detections_created := [w.next_id, w.next_id + 1],
          fire_smoke_detected := true, person_detection_skipped := true },
       { w with
          detections := w.detections ++
            [(w.next_id,
              { camera := cam.id, detection_type := "fire",
                confidence_score := avg_confidence dummy_fire_boxes,
                bounding_boxes := dummy_fire_boxes, is_false_positive := false }),
             (w.next_id + 1,
              { camera := cam.id, detection_type := "smoke",
                confidence_score := avg_confidence dummy_smoke_boxes,
                bounding_boxes := dummy_smoke_boxes, is_false_positive := false })],
          next_id := w.next_id + 1 + 1 })
    ∧ avg_confidence dummy_fire_boxes = 85/100
    ∧ avg_confidence dummy_smoke_boxes = 75/100 := by
  refine ⟨?_, ?_, ?_⟩
  · have hguard : (truthy req.camera_id || truthy req.ip_port ||
        truthy req.cellular_identifier) = true := by
      by_contra hc
      rw [Bool.not_eq_true, Bool.or_eq_false_iff, Bool.or_eq_false_iff] at hc
      unfold get_camera_by_identifier at hres
      simp [hc.1.1, hc.1.2, hc.2] at hres
    unfold receive_image process_fire_smoke_detection save_detection
    rw [hres]
    simp [hguard, hm, hsf, hss, hact, himg]
  · norm_num [avg_confidence, dummy_fire_boxes]
  · norm_num [avg_confidence, dummy_smoke_boxes]

/-- Witness for C10: the concrete request `reqById` against `w0` with the
fire model unloaded persists the two synthetic rows. -/
theorem C10_witness :
    receive_image reqById envC10 w0 =
      (Except.ok
        { success := true, camera_id := camera1.id,
          camera_type := camera1.camera_type,
          detections_created := [w0.next_id, w0.next_id + 1],
          fire_smoke_detected := true, person_detection_skipped := true },
       { w0 with
          detections := w0.detections ++
            [(w0.next_id,
              { camera := camera1.id, detection_type := "fire",
                confidence_score := avg_confidence dummy_fire_boxes,
                bounding_boxes := dummy_fire_boxes, is_false_positive := false }),
             (w0.next_id + 1,
              { camera := camera1.id, detection_type := "smoke",
                confidence_score := avg_confidence dummy_smoke_boxes,
                bounding_boxes := dummy_smoke_boxes, is_false_positive := false })],
          next_id := w0.next_id + 1 + 1 })
    ∧ avg_confidence dummy_fire_boxes = 85/100
    ∧ avg_confidence dummy_smoke_boxes = 75/100 :=
  C10_dummy_detections reqById envC10 w0 camera1 rfl rfl rfl (by rfl) rfl rfl

/-- Box with class id 2, outside the fire/smoke class set. -/
def box_cls2 : RawBox :=
  { x1 := 0, y1 := 0, x2 := 1, y2 := 1, width := 1, height := 1,
    confidence := 1/2, cls := 2 }

/-- Environment whose fire model returns a single class-2 box. -/
def envC2 : Env :=
  { fire_model := true, person_model := false, fire_boxes := [box_cls2],
    person_boxes := [], save_ok := fun _ => true }

/-- Store after the C2 counterexample run. -/
def w0_cls2 : World :=
  { cameras := [camera1]
    detections := [(0,
      { camera := 1, detection_type := "fire", confidence_score := 1/2,
        bounding_boxes := [box_cls2], is_false_positive := false })]
    next_id := 1
    events := ["fire_model"] }

/-- Counterexample to C2 as stated: the claim partitions boxes by class id
with 0 = fire and 1 = smoke, so a class-2 box belongs to neither group and
no Detection should carry it; the code's mapping defaults every class id
other than 1 to fire, so a frame whose model output is the single class-2
box `box_cls2` persists a fire Detection carrying that box. -/
theorem C2_counterexample :
    process_fire_smoke_detection envC2 camera1 w0 = Except.ok ([0], w0_cls2)
    ∧ w0_cls2.detections.map (fun p => p.2.detection_type) = ["fire"]
    ∧ w0_cls2.detections.map (fun p => p.2.bounding_boxes.map (·.cls)) = [[2]]
    ∧ (w0_cls2.detections.filter (fun p => p.2.detection_type == "fire")).all
        (fun p => p.2.bounding_boxes.all (fun b => b.cls = 0)) = false := by
  refine ⟨?_, by decide, by decide, by decide⟩
  simp +decide [process_fire_smoke_detection, fire_group, smoke_group,
    save_detection, avg_confidence, get_detection_type_from_class, envC2,
    box_cls2, camera1, w0, w0_cls2]

/-- C2 amended: the partition maps class id 1 to the smoke group and every
other class id (the mapping's default) to the fire group; when the model is
loaded and the group saves succeed, exactly one Detection row is persisted
per non-empty group, carrying exactly that group's boxes with confidence
score equal to the mean of that group's box confidences at creation time. -/
theorem C2_partition_amended (env : Env) (cam : Camera) (w : World)
    (hm : env.fire_model = true)
    (hf : env.save_ok "fire" = true)
    (hs : env.save_ok "smoke" = true) :
    process_fire_smoke_detection env cam w =
      Except.ok
        ((if (fire_group env.fire_boxes).isEmpty then [] else [w.next_id]) ++
         (if (smoke_group env.fire_boxes).isEmpty then []
          else [w.next_id + (if (fire_group env.fire_boxes).isEmpty then 0 else 1)]),
         { w with
            detections := w.detections ++
              ((if (fire_group env.fire_boxes).isEmpty then []
                else [(w.next_id,
                  { camera := cam.id, detection_type := "fire",
                    confidence_score := avg_confidence (fire_group env.fire_boxes),
                    bounding_boxes := fire_group env.fire_boxes,
                    is_false_positive := false })]) ++
               (if (smoke_group env.fire_boxes).isEmpty then []
                else [(w.next_id + (if (fire_group env.fire_boxes).isEmpty then 0 else 1),
                  { camera := cam.id, detection_type := "smoke",
                    confidence_score := avg_confidence (smoke_group env.fire_boxes),
                    bounding_boxes := smoke_group env.fire_boxes,
                    is_false_positive := false })]))
            next_id := w.next_id +
              (if (fire_group env.fire_boxes).isEmpty then 0 else 1) +
              (if (smoke_group env.fire_boxes).isEmpty then 0 else 1)
            events := w.events ++ ["fire_model"] }) := by
  unfold process_fire_smoke_detection save_detection
  dsimp only
  simp only [hm, hf, hs, if_true]
  split_ifs <;> simp_all [List.append_assoc]

/-- Witness for C2's amended theorem at the concrete class-2 frame. -/
theorem C2_witness :
    process_fire_smoke_detection envC2 camera1 w0 =
      Except.ok
        ((if (fire_group envC2.fire_boxes).isEmpty then [] else [w0.next_id]) ++
         (if (smoke_group envC2.fire_boxes).isEmpty then []
          else [w0.next_id + (if (fire_group envC2.fire_boxes).isEmpty then 0 else 1)]),
         { w0 with
            detections := w0.detections ++
              ((if (fire_group envC2.fire_boxes).isEmpty then []
                else [(w0.next_id,
                  { camera := camera1.id, detection_type := "fire",
                    confidence_score := avg_confidence (fire_group envC2.fire_boxes),
                    bounding_boxes := fire_group envC2.fire_boxes,
                    is_false_positive := false })]) ++
               (if (smoke_group envC2.fire_boxes).isEmpty then []
                else [(w0.next_id + (if (fire_group envC2.fire_boxes).isEmpty then 0 else 1),
                  { camera := camera1.id, detection_type := "smoke",
                    confidence_score := avg_confidence (smoke_group envC2.fire_boxes),
                    bounding_boxes := smoke_group envC2.fire_boxes,
                    is_false_positive := false })]))
            next_id := w0.next_id +
              (if (fire_group envC2.fire_boxes).isEmpty then 0 else 1) +
              (if (smoke_group envC2.fire_boxes).isEmpty then 0 else 1)
            events := w0.events ++ ["fire_model"] }) :=
  C2_partition_amended envC2 camera1 w0 rfl rfl rfl

/-- Request supplying two camera identifiers at once. -/
def reqBoth : IngestRequest :=
  { camera_id := some "1", ip_port := some "9.9.9.9:1",
    cellular_identifier := none, has_image := true }

/-- Environment with the fire model loaded and no boxes returned. -/
def envQuiet : Env :=
  { fire_model := true, person_model := false, fire_boxes := [],
    person_boxes := [], save_ok := fun _ => true }

/-- Counterexample to C3 as stated: a request carrying both `camera_id` and
`ip_port` is not rejected with a BadRequest error; the endpoint resolves the
camera by id (the highest-priority identifier) and answers with success. -/
theorem C3_counterexample :
    truthy reqBoth.camera_id = true
    ∧ truthy reqBoth.ip_port = true
    ∧ receive_image reqBoth envQuiet w0 =
        (Except.ok
          { success := true, camera_id := 1, camera_type := "ip",
            detections_created := [], fire_smoke_detected := false,
            person_detection_skipped := false },
         { w0 with events := ["fire_model"] }) := by
  refine ⟨by decide, by decide, ?_⟩
  simp +decide [receive_image, reqBoth, envQuiet, w0, camera1,
    get_camera_by_identifier, truthy, process_fire_smoke_detection, fire_group,
    smoke_group, save_detection, avg_confidence, get_detection_type_from_class,
    process_person_detection]

/-- C3 amended: a request with zero (truthy) camera identifiers fails with
status 400 and leaves the store untouched (no Detection rows created); a
request with more than one identifier is not rejected — resolution is
attempted on exactly one identifier chosen by priority `camera_id`, then
`ip_port`, then `cellular_identifier`, the lower-priority ones ignored. -/
theorem C3_identifier_validation (req : IngestRequest) (env : Env) (w : World) :
    (truthy req.camera_id = false → truthy req.ip_port = false →
      truthy req.cellular_identifier = false →
      receive_image req env w =
        (Except.error (400, "Camera identifier required"), w))
    ∧ (truthy req.camera_id = true →
        get_camera_by_identifier req.camera_id req.ip_port
          req.cellular_identifier w.cameras =
        get_camera_by_identifier req.camera_id none none w.cameras)
    ∧ (truthy req.camera_id = false → truthy req.ip_port = true →
        get_camera_by_identifier req.camera_id req.ip_port
          req.cellular_identifier w.cameras =
        get_camera_by_identifier none req.ip_port none w.cameras) := by
  refine ⟨?_, ?_, ?_⟩
  · intro h1 h2 h3
    unfold receive_image
    simp [h1, h2, h3]
  · intro h1
    unfold get_camera_by_identifier
    simp [h1]
  · intro h1 h2
    unfold get_camera_by_identifier
    simp [h1, h2, show truthy (none : Option String) = false from rfl]

/-- Request with no identifier at all. -/
def reqNone : IngestRequest :=
  { camera_id := none, ip_port := none, cellular_identifier := none,
    has_image := true }

/-- Witness for C3's amended theorem: a request without any identifier is
rejected with status 400 and the store is unchanged. -/
theorem C3_witness :
    receive_image reqNone envQuiet w0 =
      (Except.error (400, "Camera identifier required"), w0) :=
  (C3_identifier_validation reqNone envQuiet w0).1 rfl rfl rfl

/-- Fire box with confidence 0.5 used in the C5 counterexample. -/
def box_fire05 : RawBox :=
  { x1 := 0, y1 := 0, x2 := 2, y2 := 2, width := 2, height := 2,
    confidence := 1/2, cls := 0 }

/-- Smoke box with confidence 0.5 used in the C5 counterexample. -/
def box_smoke05 : RawBox :=
  { x1 := 3, y1 := 3, x2 := 5, y2 := 5, width := 2, height := 2,
    confidence := 1/2, cls := 1 }

/-- Environment for C5: the model returns one fire and one smoke box, the
fire-group save raises while the smoke-group save would succeed. -/
def envC5 : Env :=
  { fire_model := true, person_model := false,
    fire_boxes := [box_fire05, box_smoke05], person_boxes := [],
    save_ok := fun t => t != "fire" }

/-- Counterexample to C5 as stated: with a non-empty smoke group and a
functional smoke save, a failing fire-group save leaves the frame with no
persisted detection at all — the smoke group is not evaluated, because the
exception is caught only at the stage level, after skipping the rest of the
block. -/
theorem C5_counterexample :
    smoke_group envC5.fire_boxes = [box_smoke05]
    ∧ envC5.save_ok "smoke" = true
    ∧ process_fire_smoke_detection envC5 camera1 w0 =
        Except.ok ([], { w0 with events := ["fire_model"] }) := by
  refine ⟨by simp +decide [smoke_group, envC5, get_detection_type_from_class,
    box_fire05, box_smoke05], by decide, ?_⟩
  simp +decide [process_fire_smoke_detection, fire_group, smoke_group,
    save_detection, avg_confidence, get_detection_type_from_class, envC5,
    box_fire05, box_smoke05, camera1, w0]

/-- C5 amended: a group-save failure in the loaded fire/smoke stage never
aborts the frame (the stage always returns normally), a smoke-save failure
leaves the fire group's created id in the reported list, and a fire-save
failure is excluded from the list — but it also skips the smoke group
entirely, instead of evaluating the remaining groups. -/
theorem C5_group_failure_isolation (env : Env) (cam : Camera) (w : World) :
    (env.fire_model = true →
      ∃ ids w1, process_fire_smoke_detection env cam w = Except.ok (ids, w1))
    ∧ (env.fire_model = true → env.save_ok "fire" = true →
        env.save_ok "smoke" = false →
        (fire_group env.fire_boxes).isEmpty = false →
        process_fire_smoke_detection env cam w =
          Except.ok ([w.next_id],
            { w with
                detections := w.detections ++
                  [(w.next_id,
                    { camera := cam.id, detection_type := "fire",
                      confidence_score := avg_confidence (fire_group env.fire_boxes),
                      bounding_boxes := fire_group env.fire_boxes,
                      is_false_positive := false })]
                next_id := w.next_id + 1
                events := w.events ++ ["fire_model"] }))
    ∧ (env.fire_model = true → env.save_ok "fire" = false →
        (fire_group env.fire_boxes).isEmpty = false →
        process_fire_smoke_detection env cam w =
          Except.ok ([], { w with events := w.events ++ ["fire_model"] })) := by
  refine ⟨?_, ?_, ?_⟩
  · intro hm
    unfold process_fire_smoke_detection save_detection
    dsimp only
    simp only [hm, if_true]
    split_ifs <;> exact ⟨_, _, rfl⟩
  · intro hm hf hs hne
    unfold process_fire_smoke_detection save_detection
    dsimp only
    simp [hm, hf, hs, hne]
  · intro hm hf hne
    unfold process_fire_smoke_detection save_detection
    dsimp only
    simp [hm, hf, hne]

/-- Witness for C5's amended theorem: concretely, a failing fire save with a
non-empty fire group yields an empty created-ids list while the stage still
returns normally. -/
theorem C5_witness :
    process_fire_smoke_detection envC5 camera1 w0 =
      Except.ok ([], { w0 with events := w0.events ++ ["fire_model"] }) :=
  (C5_group_failure_isolation envC5 camera1 w0).2.2 rfl rfl (by decide)

/-- Identification keys actually used by `get_camera_by_identifier`, with
the same priority order, but without the `is_active` filters: true when the
request's highest-priority truthy identifier designates camera `c`. -/
def camera_matches (req : IngestRequest) (c : Camera) : Bool :=
  if truthy req.camera_id then
    toString c.id == req.camera_id.getD ""
  else if truthy req.ip_port then
    match parse_ip_port (req.ip_port.getD "") with
    | some (ip, p) =>
        c.camera_type == "ip" && c.ip_address == some ip && c.port == some p
    | none => false
  else if truthy req.cellular_identifier then
    c.camera_type == "cellular" && c.cellular_identifier == req.cellular_identifier
  else false

/-- Success discriminator of the endpoint's response. -/
def response_is_ok : Except (Nat × String) IngestResponse → Bool
  | Except.ok _ => true
  | Except.error _ => false

/-- C7: an ingestion request that resolves to a camera whose `is_active`
flag is false (by any of the three identifier forms) fails with an error
response and leaves the store untouched, so no Detection row is ever
created for that camera. -/
theorem C7_inactive_camera_no_detections (req : IngestRequest) (env : Env)
    (w : World) (c : Camera)
    (hc : c ∈ w.cameras)
    (hm : camera_matches req c = true)
    (hin : c.is_active = false)
    (huniq : ∀ c' ∈ w.cameras, camera_matches req c' = true → c' = c) :
    response_is_ok (receive_image req env w).1 = false ∧
    (receive_image req env w).2 = w := by
  unfold receive_image get_camera_by_identifier
  by_cases h1 : truthy req.camera_id = true
  · cases hfind : w.cameras.find? (fun c' => toString c'.id == req.camera_id.getD "") with
    | none => simp [h1, hfind, response_is_ok]
    | some c2 =>
      have hpred := List.find?_some hfind
      have hmem := List.mem_of_find?_eq_some hfind
      have hmatch2 : camera_matches req c2 = true := by
        simpa [camera_matches, h1] using hpred
      have hceq := huniq c2 hmem hmatch2
      subst hceq
      simp [h1, hfind, hin, response_is_ok]
  · by_cases h2 : truthy req.ip_port = true
    · cases hp : parse_ip_port (req.ip_port.getD "") with
      | none =>
        simp [h1, h2, hp, response_is_ok]
      | some pr =>
        obtain ⟨ip, p⟩ := pr
        cases hfind : w.cameras.find? (fun c' =>
            c'.camera_type == "ip" && c'.ip_address == some ip &&
            c'.port == some p && c'.is_active) with
        | none => simp [h1, h2, hp, hfind, response_is_ok]
        | some c2 =>
          exfalso
          have hpred := List.find?_some hfind
          have hmem := List.mem_of_find?_eq_some hfind
          simp only [Bool.and_eq_true] at hpred
          have hmatch2 : camera_matches req c2 = true := by
            simp [camera_matches, h1, h2, hp, hpred.1.1.1, hpred.1.1.2, hpred.1.2]
          have hceq := huniq c2 hmem hmatch2
          rw [hceq] at hpred
          rw [hin] at hpred
          exact Bool.false_ne_true hpred.2
    · by_cases h3 : truthy req.cellular_identifier = true
      · cases hfind : w.cameras.find? (fun c' =>
            c'.camera_type == "cellular" &&
            c'.cellular_identifier == req.cellular_identifier && c'.is_active) with
        | none => simp [h1, h2, h3, hfind, response_is_ok]
        | some c2 =>
          exfalso
          have hpred := List.find?_some hfind
          have hmem := List.mem_of_find?_eq_some hfind
          simp only [Bool.and_eq_true] at hpred
          have hmatch2 : camera_matches req c2 = true := by
            simp [camera_matches, h1, h2, h3, hpred.1.1, hpred.1.2]
          have hceq := huniq c2 hmem hmatch2
          rw [hceq] at hpred
          rw [hin] at hpred
          exact Bool.false_ne_true hpred.2
      · simp only [Bool.not_eq_true] at h1 h2 h3
        simp [h1, h2, h3, response_is_ok]

/-- Inactive IP camera with id 2. -/
def camera2 : Camera :=
  { id := 2, camera_type := "ip", ip_address := some "10.0.0.6",
    port := some 8081, cellular_identifier := none, is_active := false }

/-- Store holding an active and an inactive camera. -/
def wC7 : World :=
  { cameras := [camera1, camera2], detections := [], next_id := 0, events := [] }

/-- Request identifying the inactive `camera2` by id. -/
def reqC7 : IngestRequest :=
  { camera_id := some "2", ip_port := none, cellular_identifier := none,
    has_image := true }

/-- Witness for C7: the concrete request for the inactive camera 2 yields an
error response and leaves the store unchanged. -/
theorem C7_witness :
    response_is_ok (receive_image reqC7 envQuiet wC7).1 = false ∧
    (receive_image reqC7 envQuiet wC7).2 = wC7 :=
  C7_inactive_camera_no_detections reqC7 envQuiet wC7 camera2
    (by decide) (by decide) (by decide) (by decide)

/-- Notifications referencing detection `d` held by user `u`. -/
def notif_count (notifs : List NotificationRow) (d u : Nat) : Nat :=
  (notifs.filter (fun n => n.detection == d && n.user == u)).length

/-- Events whose `created` flag is false never create notifications: every
`post_save` fired by a later save of the same row is a no-op. -/
theorem run_post_save_no_creation (inst : DetInstance)
    (roles : List UserProjectRole) :
    ∀ (events : List Bool) (notifs : List NotificationRow),
      events.count true = 0 →
      run_post_save inst roles events notifs = notifs := by
  intro events
  induction events with
  | nil => intro notifs _; rfl
  | cons e es ih =>
    intro notifs h
    cases e with
    | false =>
      have h' : es.count true = 0 := by simpa [List.count_cons] using h
      have hstep : run_post_save inst roles (false :: es) notifs =
          run_post_save inst roles es notifs := by
        simp [run_post_save, create_detection_notification]
      rw [hstep]
      exact ih notifs h'
    | true => simp [List.count_cons] at h

/-- Core fanout count: across a sequence of `post_save` events containing
exactly one insert, each user ends with one notification for the detection
if they are in the audience, none otherwise. -/
theorem run_post_save_count (inst : DetInstance) (roles : List UserProjectRole)
    (u : Nat)
    (hfp : inst.is_false_positive = false)
    (hnodup : (fanout_audience inst roles).Nodup) :
    ∀ (events : List Bool) (notifs : List NotificationRow),
      (∀ n ∈ notifs, n.detection ≠ inst.id) →
      events.count true = 1 →
      notif_count (run_post_save inst roles events notifs) inst.id u =
        if u ∈ fanout_audience inst roles then 1 else 0 := by
  intro events
  induction events with
  | nil => intro notifs _ honce; simp at honce
  | cons e es ih =>
    intro notifs hfresh honce
    cases e with
    | false =>
      have h' : es.count true = 1 := by simpa [List.count_cons] using honce
      have hstep : run_post_save inst roles (false :: es) notifs =
          run_post_save inst roles es notifs := by
        simp [run_post_save, create_detection_notification]
      rw [hstep]
      exact ih notifs hfresh h'
    | true =>
      have hes : es.count true = 0 := by simpa [List.count_cons] using honce
      have hstep : run_post_save inst roles (true :: es) notifs =
          run_post_save inst roles es
            (notifs ++ (fanout_audience inst roles).map
              (fun u' => { user := u', detection := inst.id,
                           notification_type := "detection" })) := by
        simp [run_post_save, create_detection_notification, hfp, fanout_audience]
      rw [hstep, run_post_save_no_creation inst roles es _ hes]
      unfold notif_count
      rw [List.filter_append, List.length_append]
      have h0 : (notifs.filter
          (fun n => n.detection == inst.id && n.user == u)).length = 0 := by
        rw [List.length_eq_zero, List.filter_eq_nil_iff]
        intro n hn
        have := hfresh n hn
        simp [this]
      rw [h0]
      rw [List.filter_map, List.length_map]
      have hcomp :
          ((fun n : NotificationRow => n.detection == inst.id && n.user == u) ∘
            (fun u' => { user := u', detection := inst.id,
                         notification_type := "detection" } : Nat → NotificationRow))
          = fun u' => u' == u := by
        funext u'
        simp
      rw [hcomp]
      rw [← List.countP_eq_length_filter]
      by_cases hmem : u ∈ fanout_audience inst roles
      · rw [if_pos hmem]
        have := List.count_eq_one_of_mem hnodup hmem
        simpa [List.count] using this
      · rw [if_neg hmem]
        have := List.count_eq_zero_of_not_mem hmem
        simpa [List.count] using this

/-- C4: once a non-false-positive Detection is inserted, exactly one
Notification per active UserProjectRole user of its camera's project exists
afterwards, each referencing that Detection, and re-triggering the receiver
for the same detection (every later `post_save` carries `created = false`,
since a row is inserted exactly once) does not add a second Notification
for the same (detection, user) pair. -/
theorem C4_notification_fanout (inst : DetInstance)
    (roles : List UserProjectRole) (notifs : List NotificationRow)
    (events : List Bool) (u : Nat)
    (hfp : inst.is_false_positive = false)
    (hnodup : (fanout_audience inst roles).Nodup)
    (hfresh : ∀ n ∈ notifs, n.detection ≠ inst.id)
    (honce : events.count true = 1) :
    notif_count (run_post_save inst roles events notifs) inst.id u =
      if u ∈ fanout_audience inst roles then 1 else 0 :=
  run_post_save_count inst roles u hfp hnodup events notifs hfresh honce

/-- Detection instance for the C4 witness: detection 7 on a camera of
project 3. -/
def instC4 : DetInstance :=
  { id := 7, project := 3, camera_id := 5, detection_type := "fire",
    is_false_positive := false }

/-- Role table for the C4 witness: one supervisor and two clients on
project 3, one client on project 4, one inactive role on project 3. -/
def rolesC4 : List UserProjectRole :=
  [ { user := 10, project := 3, role := "supervisor", is_active := true },
    { user := 11, project := 3, role := "client", is_active := true },
    { user := 12, project := 3, role := "client", is_active := true },
    { user := 13, project := 4, role := "client", is_active := true },
    { user := 14, project := 3, role := "client", is_active := false } ]

/-- Witness for C4: after the creating `post_save` and one re-trigger,
client 11 holds exactly one notification for detection 7. -/
theorem C4_witness :
    notif_count (run_post_save instC4 rolesC4 [true, false] []) instC4.id 11 =
      if 11 ∈ fanout_audience instC4 rolesC4 then 1 else 0 :=
  C4_notification_fanout instC4 rolesC4 [] [true, false] 11
    rfl (by decide) (by decide) (by decide)

/-- Soundness of a passing overlap validation: no active geometry-bearing
sibling of the same project (other than the excluded pk) intersects the
candidate geometry. -/
theorem validate_ok_sound {G : Type} (inter : G → G → Bool)
    (self_pk : Option Nat) (proj : Nat) (g : G) (all : List (FarmBoundary G))
    (h : (validate_no_boundary_overlap inter self_pk proj (some g) all).1 = true)
    (b2 : FarmBoundary G) (hmem : b2 ∈ all) (hproj : b2.project = proj)
    (hact : b2.is_active = true)
    (hpk : ∀ pk, self_pk = some pk → b2.pk ≠ pk)
    (g2 : G) (hg2 : b2.boundary = some g2) :
    inter g g2 = false := by
  by_contra hcon
  rw [Bool.not_eq_false] at hcon
  have hmem1 : b2 ∈ all.filter
      (fun b => b.project == proj && b.boundary.isSome && b.is_active) := by
    rw [List.mem_filter]
    exact ⟨hmem, by simp [hproj, hact, hg2]⟩
  cases self_pk with
  | none =>
    unfold validate_no_boundary_overlap at h
    dsimp only at h
    rw [List.isEmpty_iff] at h
    have : b2 ∈ (all.filter
        (fun b => b.project == proj && b.boundary.isSome && b.is_active)).filter
        (fun b => match b.boundary with | some h2 => inter g h2 | none => false) := by
      rw [List.mem_filter]
      refine ⟨hmem1, ?_⟩
      rw [hg2]
      exact hcon
    rw [h] at this
    exact absurd this (List.not_mem_nil b2)
  | some pk =>
    unfold validate_no_boundary_overlap at h
    dsimp only at h
    rw [List.isEmpty_iff] at h
    have : b2 ∈ ((all.filter
        (fun b => b.project == proj && b.boundary.isSome && b.is_active)).filter
        (fun b => b.pk != pk)).filter
        (fun b => match b.boundary with | some h2 => inter g h2 | none => false) := by
      rw [List.mem_filter]
      refine ⟨?_, ?_⟩
      · rw [List.mem_filter]
        refine ⟨hmem1, ?_⟩
        simp [hpk pk rfl]
      · rw [hg2]
        exact hcon
    rw [h] at this
    exact absurd this (List.not_mem_nil b2)

/-- Every pk reported by a failing overlap validation designates an active
same-project boundary whose geometry intersects the candidate geometry. -/
theorem validate_offender_sound {G : Type} (inter : G → G → Bool)
    (self_pk : Option Nat) (proj : Nat) (g : G) (all : List (FarmBoundary G))
    (pk : Nat)
    (h : pk ∈ (validate_no_boundary_overlap inter self_pk proj (some g) all).2) :
    ∃ b2 ∈ all, b2.pk = pk ∧ b2.is_active = true ∧ b2.project = proj ∧
      ∃ g2, b2.boundary = some g2 ∧ inter g g2 = true := by
  unfold validate_no_boundary_overlap at h
  dsimp only at h
  have main : ∀ x : FarmBoundary G,
      x ∈ all.filter (fun b => b.project == proj && b.boundary.isSome && b.is_active) →
      (match x.boundary with | some h2 => inter g h2 | none => false) = true →
      x.pk = pk →
      ∃ b2 ∈ all, b2.pk = pk ∧ b2.is_active = true ∧ b2.project = proj ∧
        ∃ g2, b2.boundary = some g2 ∧ inter g g2 = true := by
    intro x hx hbx hxpk
    rw [List.mem_filter] at hx
    obtain ⟨hxmem, hxprops⟩ := hx
    simp only [Bool.and_eq_true, beq_iff_eq, Option.isSome_iff_exists] at hxprops
    obtain ⟨⟨hxproj, g2, hxg⟩, hxact⟩ := hxprops
    refine ⟨x, hxmem, hxpk, hxact, hxproj, g2, hxg, ?_⟩
    rw [hxg] at hbx
    exact hbx
  cases self_pk with
  | none =>
    rw [List.mem_map] at h
    obtain ⟨x, hx, hxpk⟩ := h
    rw [List.mem_filter] at hx
    exact main x hx.1 hx.2 hxpk
  | some pk0 =>
    rw [List.mem_map] at h
    obtain ⟨x, hx, hxpk⟩ := h
    rw [List.mem_filter] at hx
    obtain ⟨hx1, hbx⟩ := hx
    rw [List.mem_filter] at hx1
    exact main x hx1.1 hbx hxpk

/-- A failing overlap validation reports at least one offender. -/
theorem validate_invalid_nonempty {G : Type} (inter : G → G → Bool)
    (self_pk : Option Nat) (proj : Nat) (gOpt : Option G)
    (all : List (FarmBoundary G))
    (h : (validate_no_boundary_overlap inter self_pk proj gOpt all).1 = false) :
    (validate_no_boundary_overlap inter self_pk proj gOpt all).2 ≠ [] := by
  cases gOpt with
  | none => simp [validate_no_boundary_overlap] at h
  | some g =>
    unfold validate_no_boundary_overlap at h ⊢
    dsimp only at h ⊢
    cases self_pk <;>
      simpa using h

/-- C6: the overlap validation run on every boundary insert and update (via
`full_clean`) keeps the invariant that no two distinct active boundaries of
one project have intersecting geometries (the backend's `intersects` is the
general, symmetric intersection test, so touching also conflicts), and a
violating insert or update is rejected with a validation error listing the
offending boundary pks. -/
theorem C6_boundary_overlap_invariant {G : Type} (inter : G → G → Bool)
    (hsym : ∀ a b, inter a b = inter b a)
    (bs : List (FarmBoundary G)) (b : FarmBoundary G)
    (hInv : BoundaryInv inter bs) :
    (∀ bs', add_boundary inter b bs = Except.ok bs' → BoundaryInv inter bs')
    ∧ (∀ offs, add_boundary inter b bs = Except.error offs →
        offs ≠ [] ∧ ∀ pk ∈ offs, ∃ b2 ∈ bs, b2.pk = pk ∧ b2.is_active = true ∧
          b2.project = b.project ∧ ∃ g g2, b.boundary = some g ∧
            b2.boundary = some g2 ∧ inter g g2 = true)
    ∧ (∀ bs', update_boundary inter b bs = Except.ok bs' → BoundaryInv inter bs')
    ∧ (∀ offs, update_boundary inter b bs = Except.error offs → offs ≠ []) := by
  refine ⟨?_, ?_, ?_, ?_⟩
  · -- insert keeps the invariant
    intro bs' hok
    unfold add_boundary farm_boundary_clean at hok
    cases hb : b.boundary with
    | none =>
      rw [hb] at hok
      dsimp only at hok
      injection hok with hok
      subst hok
      intro b1 hb1 b2 hb2 hne hact1 hact2 hproj g1 g2 hg1 hg2
      rcases List.mem_append.mp hb1 with h1 | h1 <;>
        rcases List.mem_append.mp hb2 with h2 | h2
      · exact hInv b1 h1 b2 h2 hne hact1 hact2 hproj g1 g2 hg1 hg2
      · simp only [List.mem_singleton] at h2
        subst h2
        rw [hb] at hg2
        exact absurd hg2 (by simp)
      · simp only [List.mem_singleton] at h1
        subst h1
        rw [hb] at hg1
        exact absurd hg1 (by simp)
      · simp only [List.mem_singleton] at h1 h2
        subst h1; subst h2
        exact absurd rfl hne
    | some g =>
      rw [hb] at hok
      dsimp only at hok
      split at hok
      case h_1 offenders heq => exact absurd hok (by simp)
      case h_2 heq =>
        split at heq
        case isFalse hnv => exact absurd heq (by simp)
        case isTrue hvalid =>
          injection hok with hok
          subst hok
          intro b1 hb1 b2 hb2 hne hact1 hact2 hproj g1 g2 hg1 hg2
          rcases List.mem_append.mp hb1 with h1 | h1 <;>
            rcases List.mem_append.mp hb2 with h2 | h2
          · exact hInv b1 h1 b2 h2 hne hact1 hact2 hproj g1 g2 hg1 hg2
          · simp only [List.mem_singleton] at h2
            subst h2
            rw [hb] at hg2
            injection hg2 with hg2
            subst hg2
            have := validate_ok_sound inter none b2.project g bs hvalid b1 h1
              hproj hact1 (fun _ hpk => by cases hpk) g1 hg1
            rw [hsym] at this
            exact this
          · simp only [List.mem_singleton] at h1
            subst h1
            rw [hb] at hg1
            injection hg1 with hg1
            subst hg1
            exact validate_ok_sound inter none b1.project g bs hvalid b2 h2
              (hproj.symm) hact2 (fun _ hpk => by cases hpk) g2 hg2
          · simp only [List.mem_singleton] at h1 h2
            subst h1; subst h2
            exact absurd rfl hne
  · -- rejected insert lists genuine offenders
    intro offs herr
    unfold add_boundary farm_boundary_clean at herr
    cases hb : b.boundary with
    | none =>
      rw [hb] at herr
      exact absurd herr (by simp)
    | some g =>
      rw [hb] at herr
      dsimp only at herr
      split at herr
      case h_2 heq => exact absurd herr (by simp)
      case h_1 offenders heq =>
        injection herr with herr
        subst herr
        split at heq
        case isTrue hv => exact absurd heq (by simp)
        case isFalse hinvalid =>
          injection heq with heq
          subst heq
          rw [Bool.not_eq_true] at hinvalid
          constructor
          · exact validate_invalid_nonempty inter none b.project (some g) bs hinvalid
          · intro pk hpk
            obtain ⟨b2, hmem, hpk2, hact, hproj, g2, hg2, hint⟩ :=
              validate_offender_sound inter none b.project g bs pk hpk
            exact ⟨b2, hmem, hpk2, hact, hproj, g, g2, rfl, hg2, hint⟩
  · -- update keeps the invariant
    intro bs' hok
    unfold update_boundary farm_boundary_clean at hok
    cases hb : b.boundary with
    | none =>
      rw [hb] at hok
      dsimp only at hok
      injection hok with hok
      subst hok
      intro b1 hb1 b2 hb2 hne hact1 hact2 hproj g1 g2 hg1 hg2
      rw [List.mem_map] at hb1 hb2
      obtain ⟨x1, hx1, hfx1⟩ := hb1
      obtain ⟨x2, hx2, hfx2⟩ := hb2
      by_cases e1 : x1.pk = b.pk <;> by_cases e2 : x2.pk = b.pk <;>
        simp only [e1, e2, if_pos, if_neg, if_true, if_false] at hfx1 hfx2
      · subst hfx1; subst hfx2
        exact absurd rfl hne
      · subst hfx1
        rw [hb] at hg1
        exact absurd hg1 (by simp)
      · subst hfx2
        rw [hb] at hg2
        exact absurd hg2 (by simp)
      · subst hfx1; subst hfx2
        exact hInv x1 hx1 x2 hx2 hne hact1 hact2 hproj g1 g2 hg1 hg2
    | some g =>
      rw [hb] at hok
      dsimp only at hok
      split at hok
      case h_1 offenders heq => exact absurd hok (by simp)
      case h_2 heq =>
        split at heq
        case isFalse hnv => exact absurd heq (by simp)
        case isTrue hvalid =>
          injection hok with hok
          subst hok
          intro b1 hb1 b2 hb2 hne hact1 hact2 hproj g1 g2 hg1 hg2
          rw [List.mem_map] at hb1 hb2
          obtain ⟨x1, hx1, hfx1⟩ := hb1
          obtain ⟨x2, hx2, hfx2⟩ := hb2
          by_cases e1 : x1.pk = b.pk <;> by_cases e2 : x2.pk = b.pk <;>
            simp only [e1, e2, if_pos, if_neg, if_true, if_false] at hfx1 hfx2
          · subst hfx1; subst hfx2
            exact absurd rfl hne
          · subst hfx1; subst hfx2
            rw [hb] at hg1
            injection hg1 with hg1
            subst hg1
            exact validate_ok_sound inter (some b.pk) b.project g bs hvalid x2 hx2
              hproj.symm hact2 (fun pk hpk => by injection hpk with hpk; rw [← hpk]; exact e2) g2 hg2
          · subst hfx1; subst hfx2
            rw [hb] at hg2
            injection hg2 with hg2
            subst hg2
            have := validate_ok_sound inter (some b.pk) b.project g bs hvalid x1 hx1
              hproj hact1 (fun pk hpk => by injection hpk with hpk; rw [← hpk]; exact e1) g1 hg1
            rw [hsym] at this
            exact this
          · subst hfx1; subst hfx2
            exact hInv x1 hx1 x2 hx2 hne hact1 hact2 hproj g1 g2 hg1 hg2
  · -- rejected update reports at least one offender
    intro offs herr
    unfold update_boundary farm_boundary_clean at herr
    cases hb : b.boundary with
    | none =>
      rw [hb] at herr
      exact absurd herr (by simp)
    | some g =>
      rw [hb] at herr
      dsimp only at herr
      split at herr
      case h_2 heq => exact absurd herr (by simp)
      case h_1 offenders heq =>
        injection herr with herr
        subst herr
        split at heq
        case isTrue hv => exact absurd heq (by simp)
        case isFalse hinvalid =>
          injection heq with heq
          subst heq
          rw [Bool.not_eq_true] at hinvalid
          exact validate_invalid_nonempty inter (some b.pk) b.project (some g) bs hinvalid

/-- The rectangle intersection test is symmetric, as the backend's
`intersects` predicate is. -/
theorem Rect.intersects_symm (a b : Rect) :
    Rect.intersects a b = Rect.intersects b a := by
  unfold Rect.intersects
  rw [show ∀ p q r s : Bool, (p && q && r && s) = (q && p && s && r) by
    intro p q r s; cases p <;> cases q <;> cases r <;> cases s <;> rfl]

/-- Active boundary 1: the unit square scaled to side 2. -/
def fbA : FarmBoundary Rect :=
  { pk := 1, project := 1, boundary := some { x1 := 0, y1 := 0, x2 := 2, y2 := 2 },
    area_hectares := 0, is_active := true }

/-- Candidate boundary touching `fbA` along the edge `x = 2`. -/
def fbB : FarmBoundary Rect :=
  { pk := 2, project := 1, boundary := some { x1 := 2, y1 := 0, x2 := 4, y2 := 2 },
    area_hectares := 0, is_active := true }

/-- Witness for C6: inserting a boundary that merely touches the existing
active boundary of the same project is rejected, and the reported offender
pk 1 designates that boundary, whose geometry intersects the candidate's
under the general (touching included) test. -/
theorem C6_witness :
    ([1] : List Nat) ≠ [] ∧ ∀ pk ∈ ([1] : List Nat), ∃ b2 ∈ [fbA],
      b2.pk = pk ∧ b2.is_active = true ∧ b2.project = fbB.project ∧
      ∃ g g2, fbB.boundary = some g ∧ b2.boundary = some g2 ∧
        Rect.intersects g g2 = true :=
  (C6_boundary_overlap_invariant Rect.intersects Rect.intersects_symm [fbA] fbB
    (by
      intro b1 hb1 b2 hb2 hne hact1 hact2 hproj g1 g2 hg1 hg2
      simp only [List.mem_singleton] at hb1 hb2
      subst hb1; subst hb2
      exact absurd rfl hne)).2.1 [1] (by rfl)

/-- Area backend that rejects every geometry with a `GeometryError`. -/
def failing_area_backend : Rect → Except GeometryError Rat :=
  fun _ => Except.error GeometryError.malformed

/-- Boundary whose stored area is 5 hectares before the failing save. -/
def fbC8 : FarmBoundary Rect :=
  { pk := 3, project := 2, boundary := some { x1 := 0, y1 := 0, x2 := 1, y2 := 1 },
    area_hectares := 5, is_active := true }

/-- Counterexample to C8 as stated: the claim says a geometry processing
failure is rejected with a `GeometryError` and `area_hectares` is never
silently set to a default; the code's `get_area_hectares` catches every
exception and returns `0`, and `save` stores that `0` — here overwriting
the previous value 5 without any error. -/
theorem C8_counterexample :
    fbC8.area_hectares = 5
    ∧ get_area_hectares failing_area_backend fbC8.boundary = 0
    ∧ (farm_boundary_save failing_area_backend fbC8).area_hectares = 0 := by
  refine ⟨rfl, ?_, ?_⟩
  · simp [get_area_hectares, failing_area_backend, fbC8]
  · simp [farm_boundary_save, get_area_hectares, failing_area_backend, fbC8]

/-- C8 amended: on any geometry processing failure the area computation
catches the backend's `GeometryError` and returns the default `0`, and the
model save silently stores that `0` into `area_hectares` instead of
propagating the error. -/
theorem C8_silent_zero_on_failure {G : Type}
    (area_backend : G → Except GeometryError Rat) (b : FarmBoundary G) (g : G)
    (err : GeometryError)
    (hb : b.boundary = some g) (herr : area_backend g = Except.error err) :
    get_area_hectares area_backend b.boundary = 0 ∧
    (farm_boundary_save area_backend b).area_hectares = 0 := by
  constructor
  · rw [hb]
    simp [get_area_hectares, herr]
  · unfold farm_boundary_save
    rw [hb]
    simp [get_area_hectares, hb, herr]

/-- Witness for C8's amended theorem at the concrete failing backend. -/
theorem C8_witness :
    get_area_hectares failing_area_backend fbC8.boundary = 0 ∧
    (farm_boundary_save failing_area_backend fbC8).area_hectares = 0 :=
  C8_silent_zero_on_failure failing_area_backend fbC8
    { x1 := 0, y1 := 0, x2 := 1, y2 := 1 } GeometryError.malformed rfl rfl

/-- Case analysis of the slug loop from any loop state: the result is the
time-derived fallback, or a free slug that is either the entry slug or
`base-i` for some suffix `i` between the current counter and 999. -/
theorem generate_slug_from_cases (taken : String → Bool) (base ts : String) :
    ∀ (n counter : Nat) (slug : String), 1001 - counter ≤ n →
      generate_slug_from taken base ts counter slug = ts ∨
      (taken (generate_slug_from taken base ts counter slug) = false ∧
        (generate_slug_from taken base ts counter slug = slug ∨
         ∃ i, generate_slug_from taken base ts counter slug =
             base ++ "-" ++ toString i ∧ counter ≤ i ∧ i ≤ 999)) := by
  intro n
  induction n with
  | zero =>
    intro counter slug hle
    rw [generate_slug_from]
    split_ifs with h1 h2
    · left; rfl
    · exfalso; omega
    · right
      rw [Bool.not_eq_true] at h1
      exact ⟨h1, Or.inl rfl⟩
  | succ n ih =>
    intro counter slug hle
    rw [generate_slug_from]
    split_ifs with h1 h2
    · left; rfl
    · have hrec := ih (counter + 1) (base ++ "-" ++ toString counter) (by omega)
      rcases hrec with h | ⟨hfree, hcase⟩
      · left; exact h
      · right
        refine ⟨hfree, ?_⟩
        rcases hcase with h | ⟨i, hi, hge, hle2⟩
        · right; exact ⟨counter, h, le_refl _, by omega⟩
        · right; exact ⟨i, hi, by omega, hle2⟩
    · right
      rw [Bool.not_eq_true] at h1
      exact ⟨h1, Or.inl rfl⟩

/-- Case analysis of the access-code loop from any attempt index: the
result is the UUID fallback, or a free code drawn at some attempt below
100. -/
theorem generate_access_code_from_cases (taken : String → Bool)
    (rand : Nat → String) (uuid_code : String) :
    ∀ (n attempts : Nat), 100 - attempts ≤ n →
      generate_access_code_from taken rand uuid_code attempts = uuid_code ∨
      (taken (generate_access_code_from taken rand uuid_code attempts) = false ∧
        ∃ i, attempts ≤ i ∧ i < 100 ∧
          generate_access_code_from taken rand uuid_code attempts = rand i) := by
  intro n
  induction n with
  | zero =>
    intro attempts hle
    rw [generate_access_code_from]
    split_ifs with h1
    · exfalso; omega
    · left; rfl
  | succ n ih =>
    intro attempts hle
    rw [generate_access_code_from]
    split_ifs with h1
    · dsimp only
      split_ifs with h2
      · have hrec := ih (attempts + 1) (by omega)
        rcases hrec with h | ⟨hfree, i, hge, hlt, hi⟩
        · left; exact h
        · right
          exact ⟨hfree, i, by omega, hlt, hi⟩
      · right
        rw [Bool.not_eq_true] at h2
        exact ⟨h2, attempts, le_refl _, h1, rfl⟩
    · left; rfl

/-- C9: project creation terminates.  Slug collision resolution starts from
the slugified base, appends `-1`, `-2`, ... while colliding, and as soon as
more than 1000 attempts would be needed it falls back to the time-derived
slug (in particular if every slug is taken); the chosen non-fallback slug
is always free.  Access-code generation retries rejection sampling at most
100 times (every returned non-fallback code is free and drawn within 100
attempts) and otherwise falls back to the UUID-derived code, which is a
12-character uppercase string for a canonical 36-character UUID. -/
theorem C9_project_creation_terminates (taken : String → Bool)
    (base_slug : String) (timestamp : Nat) (code_taken : String → Bool)
    (rand : Nat → String) (uuid_code : String) :
    (taken base_slug = false →
      generate_unique_slug taken base_slug timestamp = base_slug)
    ∧ (generate_unique_slug taken base_slug timestamp =
        base_slug ++ "-" ++ toString timestamp ∨
       (taken (generate_unique_slug taken base_slug timestamp) = false ∧
        (generate_unique_slug taken base_slug timestamp = base_slug ∨
         ∃ i, generate_unique_slug taken base_slug timestamp =
             base_slug ++ "-" ++ toString i ∧ 1 ≤ i ∧ i ≤ 999)))
    ∧ ((∀ s, taken s = true) →
        generate_unique_slug taken base_slug timestamp =
          base_slug ++ "-" ++ toString timestamp)
    ∧ (generate_access_code code_taken rand uuid_code = uuid_code ∨
       (code_taken (generate_access_code code_taken rand uuid_code) = false ∧
        ∃ i, i < 100 ∧ generate_access_code code_taken rand uuid_code = rand i))
    ∧ ((∀ s, code_taken s = true) →
        generate_access_code code_taken rand uuid_code = uuid_code)
    ∧ (uuid_fallback "550e8400-e29b-41d4-a716-446655440000").length = 12 := by
  have hslug := generate_slug_from_cases taken base_slug
    (base_slug ++ "-" ++ toString timestamp) 1000 1 base_slug (by omega)
  have hcode := generate_access_code_from_cases code_taken rand uuid_code
    100 0 (by omega)
  refine ⟨?_, ?_, ?_, ?_, ?_, ?_⟩
  · intro h
    unfold generate_unique_slug
    rw [generate_slug_from]
    simp [h]
  · exact hslug
  · intro hall
    rcases hslug with h | ⟨hfree, _⟩
    · exact h
    · rw [hall _] at hfree
      exact absurd hfree (by simp)
  · rcases hcode with h | ⟨hfree, i, _, hlt, hi⟩
    · exact Or.inl h
    · exact Or.inr ⟨hfree, i, hlt, hi⟩
  · intro hall
    rcases hcode with h | ⟨hfree, _⟩
    · exact h
    · rw [hall _] at hfree
      exact absurd hfree (by simp)
  · decide

/-- Witness for C9: with no existing slugs or codes, the slug is the base
slug itself and the access code is the first sampled code. -/
theorem C9_witness :
    generate_unique_slug (fun _ => false) "green-valley" 1700000000 =
      "green-valley"
    ∧ ((∀ s, (fun _ => true : String → Bool) s = true) →
        generate_access_code (fun _ => true) (fun n => toString n) "UUIDFALLBACK" =
          "UUIDFALLBACK") :=
  ⟨(C9_project_creation_terminates (fun _ => false) "green-valley" 1700000000
      (fun _ => true) (fun n => toString n) "UUIDFALLBACK").1 rfl,
   (C9_project_creation_terminates (fun _ => false) "green-valley" 1700000000
      (fun _ => true) (fun n => toString n) "UUIDFALLBACK").2.2.2.2.1⟩

end SmartFarm
